import Mathlib

/-!
Verification development for the embryoscope-extraction repository: a shallow
embedding of its batch-file orchestrators, configuration values, hash-based
upsert logic, SQL join predicates, the image-metadata table schema, and the
figures of its matching reports, together with theorems settling the spec's
claims about them.
-/

/-! ## Batch-file orchestrator model

Windows batch files in this repository run python scripts (or sub-batch
files) one after another; after each step they test `%errorlevel%`.  Most
steps abort the batch with `exit /b 1` on failure, but a few only print a
WARNING and continue: the cleanup step of the image-availability pipeline,
the log-cleanup STEP 11 of the complete-dataflow orchestrator, the
table-validation steps, the bronze/silver comparison step, and the
bronze-copy Step 1 of the full clinisys dataflow (which falls back to
existing bronze data).  A step is embedded as its script name plus whether
its failure aborts the batch. -/

/-- One step of a batch-file orchestrator: the script it runs and whether a
nonzero errorlevel aborts the batch (`critical = true`) or merely prints a
warning (`critical = false`). -/
structure BatchStep where
  name : String
  critical : Bool
deriving DecidableEq, Repr

/-- Outcome of running a batch file: the scripts that were started, the
error/warning messages printed, and the batch file's exit code. -/
structure BatchResult where
  ran : List String
  msgs : List String
  exit : Nat
deriving DecidableEq, Repr

/-- Sequential batch execution as the repository's batch files implement it:
run each step in order; on a nonzero errorlevel a critical step prints an
ERROR and the batch exits with code 1 running nothing further, while a
non-critical step prints a WARNING and execution continues. -/
def runBatch (ec : String → Nat) : List BatchStep → BatchResult
  | [] => ⟨[], [], 0⟩
  | s :: rest =>
    if ec s.name ≠ 0 then
      if s.critical then
        ⟨[s.name], ["ERROR: " ++ s.name ++ " failed"], 1⟩
      else
        let r := runBatch ec rest
        ⟨s.name :: r.ran, ("WARNING: " ++ s.name ++ " failed (non-critical)") :: r.msgs, r.exit⟩
    else
      let r := runBatch ec rest
      ⟨s.name :: r.ran, r.msgs, r.exit⟩

/-- Steps of `clinisys/run_bronze_and_silver.bat`: extraction, bronze-to-silver,
table validation (non-critical: "WARNING: Table validation step had issues,
but continuing..."), consolidation. -/
def clinisysBronzeSilverSteps : List BatchStep :=
  [⟨"db_copy_loader.py", true⟩,
   ⟨"silver_loader_try_strptime_complete.py", true⟩,
   ⟨"clinisys/check_tables.py", false⟩,
   ⟨"clinisys/gold_loader.py", true⟩]

/-- Steps of the embryoscope dataflow batch file (STEP n.1 through n.5): all
critical. -/
def embryoscopeDataflowSteps : List BatchStep :=
  [⟨"01_source_to_bronze.py", true⟩,
   ⟨"02_01_bronze_to_silver.py", true⟩,
   ⟨"02_02_cleanup_silver_layer.py", true⟩,
   ⟨"02_03_consolidate_embryoscope_dbs.py", true⟩,
   ⟨"03_consolidated_to_gold.py", true⟩]

/-- Steps of the clinisys dataflow batch file: the bronze/silver comparison
step (STEP n.3) is non-critical ("WARNING: ... had issues, but continuing"). -/
def clinisysDataflowSteps : List BatchStep :=
  [⟨"01_source_to_bronze.py", true⟩,
   ⟨"02_01_bronze_to_silver.py", true⟩,
   ⟨"02_02_compare_bronze_and_silver.py", false⟩,
   ⟨"03_silver_to_gold.py", true⟩]

/-- Steps of the image-availability pipeline batch file: steps 1 to 4 are
critical, step 5 (cleanup) is explicitly non-critical ("WARNING: Cleanup step
failed (non-critical)"). -/
def imageAvailabilitySteps : List BatchStep :=
  [⟨"01_check_image_availability.py", true⟩,
   ⟨"02_logs_to_bronze.py", true⟩,
   ⟨"03_bronze_to_silver.py", true⟩,
   ⟨"04_track_changes_to_gold.py", true⟩,
   ⟨"05_cleanup_logs.py", false⟩]

/-- Steps of the "Full Clinisys Dataflow" batch file: Step 1
(`db_copy_loader.py`) on failure prints "WARNING: Database copy failed" and
jumps to `:silver_only`, continuing with Step 2 on existing bronze data, so
it is non-critical; Step 2 (silver) is critical; Step 3 (`check_tables.py`)
prints "WARNING: Table validation completed with issues" and continues. -/
def clinisysFullDataflowSteps : List BatchStep :=
  [⟨"db_copy_loader.py", false⟩,
   ⟨"silver_loader_try_strptime_complete.py", true⟩,
   ⟨"check_tables.py", false⟩]

/-- Active steps of the "COMPLETE DATAFLOW - ALL SYSTEMS" master batch file
(STEPs 4-6, 9, 10 and 12 are commented out): STEPs 1, 2, 3, 7 and 8 call
sub-batch files and abort on failure; STEP 11 (`cleanup_old_logs.py`) prints
"WARNING: Log cleanup failed (non-critical)" and the batch continues. -/
def completeDataflowSteps : List BatchStep :=
  [⟨"clinisys\\00_run_dataflow_clinisys.bat", true⟩,
   ⟨"embryoscope\\01_get_embryo_data\\00_run_dataflow_embryoscope.bat", true⟩,
   ⟨"embryoscope\\02_images_availability_report\\00_run_image_availability_pipeline.bat", true⟩,
   ⟨"data_lake_scripts\\00_run_dataflow_lake_only.bat", true⟩,
   ⟨"planilha_ploidia\\00_run_ploidia_pipeline.bat", true⟩,
   ⟨"data_lake_scripts\\cleanup_old_logs.py", false⟩]

/-! ## The image-availability pipeline batch file, in full

`00_run_image_availability_pipeline.bat` has control flow beyond the plain
step sequence: after step 1 it looks for the most recent
`api_results\MODE_*` directory; when none exists it prints a warning, reports
the pipeline complete, and exits with code 0 without running steps 2-5. -/

/-- Full control flow of the image-availability pipeline batch file, as a
function of whether the `cd`/conda-activation succeed, the errorlevels of the
five python steps, and whether an `api_results` directory for the mode was
found after step 1. -/
def runImageAvailabilityPipeline (cdOk condaOk : Bool) (dirFound : Bool)
    (e1 e2 e3 e4 e5 : Nat) : BatchResult :=
  if cdOk = false then
    ⟨[], ["ERROR: Failed to change to report directory"], 1⟩
  else if condaOk = false then
    ⟨[], ["ERROR: Failed to activate conda environment"], 1⟩
  else if e1 ≠ 0 then
    ⟨["01_check_image_availability.py"], ["ERROR: Step 1 failed"], 1⟩
  else if dirFound = false then
    ⟨["01_check_image_availability.py"],
     ["WARNING: No results directory found - no embryos were checked",
      "Pipeline complete (no embryos to process)"], 0⟩
  else if e2 ≠ 0 then
    ⟨["01_check_image_availability.py", "02_logs_to_bronze.py"],
     ["ERROR: Step 2 failed"], 1⟩
  else if e3 ≠ 0 then
    ⟨["01_check_image_availability.py", "02_logs_to_bronze.py",
      "03_bronze_to_silver.py"], ["ERROR: Step 3 failed"], 1⟩
  else if e4 ≠ 0 then
    ⟨["01_check_image_availability.py", "02_logs_to_bronze.py",
      "03_bronze_to_silver.py", "04_track_changes_to_gold.py"],
     ["ERROR: Step 4 failed"], 1⟩
  else if e5 ≠ 0 then
    ⟨["01_check_image_availability.py", "02_logs_to_bronze.py",
      "03_bronze_to_silver.py", "04_track_changes_to_gold.py",
      "05_cleanup_logs.py"],
     ["WARNING: Cleanup step failed (non-critical)",
      "PIPELINE COMPLETED SUCCESSFULLY!"], 0⟩
  else
    ⟨["01_check_image_availability.py", "02_logs_to_bronze.py",
      "03_bronze_to_silver.py", "04_track_changes_to_gold.py",
      "05_cleanup_logs.py"],
     ["PIPELINE COMPLETED SUCCESSFULLY!"], 0⟩

/-! ## Numeric ordering of the scripts each orchestrator runs -/

/-- Split a character list into its underscore-separated groups; `acc` holds
the current group reversed. -/
def groupsAux : List Char → List Char → List (List Char)
  | [], acc => [acc.reverse]
  | c :: rest, acc =>
    if c = '_' then acc.reverse :: groupsAux rest []
    else groupsAux rest (c :: acc)

/-- Numeric value of a group when it is a nonempty run of decimal digits. -/
def groupNat? (cs : List Char) : Option Nat :=
  if cs ≠ [] ∧ cs.all (fun c => 48 ≤ c.toNat ∧ c.toNat ≤ 57) then
    some (cs.foldl (fun a c => a * 10 + (c.toNat - 48)) 0)
  else none

/-- Numeric values of the leading all-digit groups. -/
def takeNums : List (List Char) → List Nat
  | [] => []
  | g :: rest =>
    match groupNat? g with
    | some n => n :: takeNums rest
    | none => []

/-- The leading numeric underscore-separated groups of a script file name:
`"02_01_bronze_to_silver.py"` yields `[2, 1]`, `"03_silver_to_gold.py"`
yields `[3]`. -/
def leadingNums (s : String) : List Nat :=
  takeNums (groupsAux s.toList [])

/-- Strict lexicographic order on numeric keys. -/
def lexLt : List Nat → List Nat → Bool
  | [], [] => false
  | [], _ :: _ => true
  | _ :: _, [] => false
  | a :: as, b :: bs => a < b || (a == b && lexLt as bs)

/-- Whether a list of numeric keys is strictly ascending. -/
def strictlyAscending : List (List Nat) → Bool
  | [] => true
  | [_] => true
  | a :: b :: rest => lexLt a b && strictlyAscending (b :: rest)

/-- Scripts of the ploidia pipeline batch file, in invocation order. -/
def ploidiaScripts : List String :=
  ["01_create_data_ploidia_table.py", "02_fill_missing_values.py",
   "03_join_image_availability.py"]

/-- Scripts of the embryoscope dataflow batch file, in invocation order. -/
def embryoscopeDataflowScripts : List String :=
  embryoscopeDataflowSteps.map (fun s => s.name)

/-- Scripts of the clinisys dataflow batch file, in invocation order. -/
def clinisysDataflowScripts : List String :=
  clinisysDataflowSteps.map (fun s => s.name)

/-- Scripts of the image-availability pipeline batch file, in invocation
order. -/
def imageAvailabilityScripts : List String :=
  imageAvailabilitySteps.map (fun s => s.name)

/-- Scripts of the data-lake combine batch file, in invocation order. -/
def dataLakeCombineScripts : List String :=
  ["01_merge_clinisys_embryoscope.py", "02_combine_redlara_planilha.py",
   "03_combine_embryoscope_planilha.py"]

/-- Scripts of the planilha create-tables batch file, in invocation order. -/
def planilhaCreateTablesScripts : List String :=
  ["01_combine_fresh_fet.py", "02_combine_embryoscope_planilha.py",
   "03_export_to_excel.py"]

/-- Scripts of the planilha-embriologia ingestion batch file, in invocation
order. -/
def planilhaIngestionScripts : List String :=
  ["01_planilha_embriologia_to_bronze.py",
   "02_planilha_embriologia_to_silver.py"]

/-- Scripts of the mesclada ingestion batch file, in invocation order. -/
def mescladaScripts : List String :=
  ["03_01_mesclada_to_bronze.py", "03_02_mesclada_to_silver.py"]

/-- Scripts of the redlara ingestion batch file, in invocation order. -/
def redlaraScripts : List String :=
  ["01_ingest_bronze.py", "02_unify_silver.py",
   "03_generate_filling_report.py"]

/-- Scripts of `00_run_complete_finops_pipeline.bat`, in invocation order:
its STEP 3 runs `03_01_create_finops_summary.py` and its STEP 4 runs
`03_00_create_patient_info.py`, and the `04` export script is invoked eight
times. -/
def finopsPipelineScripts : List String :=
  ["01_create_all_patient_timeline.py", "02_create_clean_timeline.py",
   "03_01_create_finops_summary.py", "03_00_create_patient_info.py",
   "03_02_biopsy_pgta_timeline.py", "03_03_embryoscope_timeline.py",
   "03_04_a_embryo_freeze_timeline.py",
   "03_04_b_cryopreservation_events_timeline.py",
   "03_05_consultas_timeline.py",
   "04_export_table_to_csv.py", "04_export_table_to_csv.py",
   "04_export_table_to_csv.py", "04_export_table_to_csv.py",
   "04_export_table_to_csv.py", "04_export_table_to_csv.py",
   "04_export_table_to_csv.py", "04_export_table_to_csv.py"]

example : leadingNums "02_01_bronze_to_silver.py" = [2, 1] := by decide
example : leadingNums "03_silver_to_gold.py" = [3] := by decide
example : strictlyAscending (embryoscopeDataflowScripts.map leadingNums) = true := by decide
example : strictlyAscending (finopsPipelineScripts.map leadingNums) = false := by decide

/-! ## Hash-keyed landing of extracted rows

Modelled from the spec: `data_processor.py` and `database_manager.py` are not
in the tree (only the README describing them is).  Per the spec, extraction
flattens each JSON record into a row, computes an MD5 hash of the flattened
row, stores it in the `_row_hash` column, and upserts into the local table
keyed by that hash, so a re-extracted row whose hash is already present is
not inserted again.  The MD5 function itself is a parameter of the model. -/

/-- A flattened row: ordered field-name/value pairs. -/
def FlatRow : Type := List (String × String)

/-- Flatten a row to the string that is hashed. -/
def flattenRow (r : FlatRow) : String :=
  String.intercalate "|" (r.map (fun kv => kv.1 ++ "=" ++ kv.2))

/-- A row as landed in a data table: its fields plus the `_row_hash`
column. -/
structure LandedRow where
  fields : FlatRow
  rowHash : String

/-- Modelled from the spec: build the landed row, storing the MD5 hash of the
flattened row in `_row_hash`. -/
def mkLandedRow (md5 : String → String) (r : FlatRow) : LandedRow :=
  ⟨r, md5 (flattenRow r)⟩

/-- The `_row_hash` column of a table. -/
def rowHashes (t : List LandedRow) : List String :=
  t.map (fun r => r.rowHash)

/-- Modelled from the spec: upsert keyed by `_row_hash` — a row whose hash is
already present in the table is not inserted as a new record. -/
def upsertByHash (t : List LandedRow) (r : LandedRow) : List LandedRow :=
  if r.rowHash ∈ rowHashes t then t else t ++ [r]

/-- Land a batch of extracted rows, hashing and upserting each in turn. -/
def landBatch (md5 : String → String) (t : List LandedRow)
    (batch : List FlatRow) : List LandedRow :=
  batch.foldl (fun acc r => upsertByHash acc (mkLandedRow md5 r)) t

/-! ## Extraction configuration and request scheduling

The configuration values are those of `params_template.yml` (`extraction:`
block) and of the image-availability script's README.  `api_client.py` and
`embryoscope_extractor.py` are not in the tree; the request schedule, worker
assignment, and token-refresh cadence are modelled from the spec. -/

/-- The `extraction:` block of `params_template.yml`. -/
structure ExtractionConfig where
  rate_limit_delay : ℚ
  max_retries : Nat
  timeout : Nat
  batch_size : Nat
  parallel_processing : Bool
  max_workers : Nat
  token_refresh_patients : Nat
  token_refresh_treatments : Nat

/-- The values in `params_template.yml`: delay 0.1 s, 3 retries, timeout 30,
batch 1000, parallel with 3 workers, token refresh every 2000 patients / 5000
treatments. -/
def extractionConfig : ExtractionConfig :=
  ⟨1 / 10, 3, 30, 1000, true, 3, 2000, 5000⟩

/-- From the image-availability README: token refresh every 1000 embryos. -/
def imageAvailabilityTokenRefreshEmbryos : Nat := 1000

/-- From the image-availability README: 0.1 s delay between requests. -/
def imageAvailabilityRateDelay : ℚ := 1 / 10

/-- Modelled from the spec: `api_client.py` is not in the tree; with a fixed
delay inserted between consecutive requests, request `i` is issued at time
`i * rate_limit_delay`. -/
def requestTime (cfg : ExtractionConfig) (i : Nat) : ℚ :=
  i * cfg.rate_limit_delay

/-- Modelled from the spec: `embryoscope_extractor.py` is not in the tree;
location extractions are distributed over a pool of `max_workers` workers. -/
def workerOf (cfg : ExtractionConfig) (loc : Nat) : Nat :=
  loc % cfg.max_workers

/-- Modelled from the spec: the extractor refreshes the authentication token
after every `token_refresh_patients` processed patients; this counts the
refreshes performed after `processed` patients. -/
def patientTokenRefreshes (cfg : ExtractionConfig) (processed : Nat) : Nat :=
  processed / cfg.token_refresh_patients

/-- Modelled from the spec: likewise for treatments. -/
def treatmentTokenRefreshes (cfg : ExtractionConfig) (processed : Nat) : Nat :=
  processed / cfg.token_refresh_treatments

/-! ## API request retries

Modelled from the spec: `api_client.py` is not in the tree; per the README's
retry test ("API request retry mechanism (3 attempts), exponential backoff
timing"), a failed request is retried up to `max_retries` attempts with
exponentially growing delay, the failure is propagated only after the final
attempt fails, and any successful attempt returns its value. -/

/-- Try attempts `k, k+1, ...` while `n` attempts remain: return the first
success; propagate the error of the final attempt once all fail. -/
def retryFrom {α : Type} (att : Nat → Except String α) : Nat → Nat → Except String α
  | _, 0 => Except.error "no attempts made"
  | k, n + 1 =>
    match att k, n with
    | Except.ok v, _ => Except.ok v
    | Except.error e, 0 => Except.error e
    | Except.error _, _ + 1 => retryFrom att (k + 1) n

/-- Modelled from the spec: perform an API request with up to `maxRetries`
attempts. -/
def requestWithRetries {α : Type} (maxRetries : Nat)
    (att : Nat → Except String α) : Except String α :=
  retryFrom att 0 maxRetries

/-- Modelled from the spec: exponential backoff — the delay before retry
`k`, doubling with each attempt. -/
def backoffDelay (k : Nat) : ℚ :=
  2 ^ k

/-! ## The matching report figures

The tables of `matching_report_20250730_141832.md`, embedded verbatim.
Rates are in hundredths of a percent (33.43 % is `3343`). -/

/-- A row of the "Match Rate Per Year" table. -/
structure YearMatchRow where
  year : Nat
  totalClinisys : Nat
  matched : Nat
  ratePct100 : Nat
deriving DecidableEq, Repr

/-- The "Match Rate Per Year" table of the report. -/
def matchRatePerYear : List YearMatchRow :=
  [⟨2010, 29, 0, 0⟩, ⟨2011, 39, 0, 0⟩, ⟨2015, 11, 0, 0⟩, ⟨2016, 42, 0, 0⟩,
   ⟨2017, 64, 0, 0⟩, ⟨2018, 2924, 0, 0⟩, ⟨2019, 10097, 37, 37⟩,
   ⟨2020, 12863, 271, 211⟩, ⟨2021, 42535, 3543, 833⟩,
   ⟨2022, 58359, 17797, 3050⟩, ⟨2023, 63584, 19953, 3138⟩,
   ⟨2024, 59101, 17307, 2928⟩, ⟨2025, 34015, 11370, 3343⟩]

/-- The "Match Rate Last 6 Months" figures: total, matched, rate. -/
def matchRateLast6Months : Nat × Nat × Nat := (30460, 10160, 3336)

/-- A row of the "Match Rate Per Clinic" table. -/
structure ClinicMatchRow where
  clinic : String
  totalClinisys : Nat
  matched : Nat
  ratePct100 : Nat
deriving DecidableEq, Repr

/-- The "Match Rate Per Clinic" table of the report. -/
def matchRatePerClinic : List ClinicMatchRow :=
  [⟨"Unknown", 283347, 70124, 2475⟩,
   ⟨"VILA MARIANA", 87, 87, 10000⟩,
   ⟨"Huntington Vila Mariana", 50, 2, 400⟩,
   ⟨"Huntington", 48, 0, 0⟩,
   ⟨"IBIRAPUERA", 34, 26, 7647⟩,
   ⟨"Vila Mariana", 24, 14, 5833⟩,
   ⟨"HUNTINGTON VILA MARIANA", 16, 16, 10000⟩,
   ⟨"Huntington Santa Joana ", 12, 0, 0⟩,
   ⟨"HUNTINGTON IBIRAPUERA", 10, 0, 0⟩,
   ⟨"Huntington Santa Joana", 7, 0, 0⟩,
   ⟨"HUNTINGTON - CAMPINAS ", 6, 0, 0⟩,
   ⟨"06 embri�es vindos da Vila Mariana em 25/03/2021", 6, 0, 0⟩,
   ⟨"IBIRA", 6, 6, 10000⟩,
   ⟨"Vindos do Vila Mariana", 5, 1, 2000⟩,
   ⟨"CLINIFERT", 2, 2, 10000⟩,
   ⟨"clinica de origem", 2, 0, 0⟩,
   ⟨"CENAFERT", 1, 0, 0⟩]

/-- All rates of the report, in hundredths of a percent. -/
def allReportedRates : List Nat :=
  matchRatePerYear.map (fun r => r.ratePct100)
    ++ [matchRateLast6Months.2.2]
    ++ matchRatePerClinic.map (fun r => r.ratePct100)

/-! ## Cross-system join predicates

Modelled from the spec: `01_merge_clinisys_embryoscope.py` and
`01_combine_embryoscope_planilha.py` are not in the tree; the pipeline
dependencies document records their join conditions — equalities on date,
patient record number and embryo number for the clinisys/embryoscope merge,
and on patient record number and transfer date for the spreadsheet join.
Timestamps are seconds; `DATE(·)` truncates to the day. -/

/-- SQL `DATE(·)` on a seconds timestamp: the day number. -/
def dateOf (t : Nat) : Nat := t / 86400

/-- The clinisys-side columns the merge join reads (prefixes `micro_`,
`oocito_`, `descong_em_` from `gold.clinisys_embrioes`). -/
structure ClinisysEmbryo where
  micro_prontuario : String
  micro_Data_DL : Nat
  oocito_embryo_number : Nat
deriving DecidableEq, Repr

/-- The embryoscope-side columns the merge join reads (from
`gold.embryoscope_embrioes`). -/
structure EmbryoscopeEmbryo where
  prontuario : String
  embryo_FertilizationTime : Nat
  embryo_embryo_number : Nat
deriving DecidableEq, Repr

/-- Join condition of `01_merge_clinisys_embryoscope.py`:
`micro_Data_DL = DATE(embryo_FertilizationTime)`,
`micro_prontuario = prontuario`,
`oocito_embryo_number = embryo_embryo_number`. -/
def mergeJoinPred (c : ClinisysEmbryo) (e : EmbryoscopeEmbryo) : Bool :=
  c.micro_Data_DL == dateOf e.embryo_FertilizationTime &&
  c.micro_prontuario == e.prontuario &&
  c.oocito_embryo_number == e.embryo_embryo_number

/-- Matched pairs of the merge: every pair satisfying the equality predicate,
with no tie-breaking, scoring, or conflict-resolution step. -/
def mergeClinisysEmbryoscope (cs : List ClinisysEmbryo)
    (es : List EmbryoscopeEmbryo) : List (ClinisysEmbryo × EmbryoscopeEmbryo) :=
  cs.flatMap (fun c => (es.filter (mergeJoinPred c)).map (fun e => (c, e)))

/-- The combined-side columns the spreadsheet join reads (from
`gold.embryoscope_clinisys_combined`). -/
structure CombinedRow where
  micro_prontuario : String
  descong_em_DataTransferencia : Nat
deriving DecidableEq, Repr

/-- The spreadsheet-side columns the join reads (`silver.planilha_embriologia`,
the "FET" sheet). -/
structure PlanilhaRow where
  PIN : String
  DATA_DA_FET : Nat
deriving DecidableEq, Repr

/-- Join condition of `01_combine_embryoscope_planilha.py`:
`micro_prontuario = PIN` and
`DATE(descong_em_DataTransferencia) = DATE("DATA DA FET")`. -/
def planilhaJoinPred (g : CombinedRow) (p : PlanilhaRow) : Bool :=
  g.micro_prontuario == p.PIN &&
  dateOf g.descong_em_DataTransferencia == dateOf p.DATA_DA_FET

/-- Matched pairs of the spreadsheet join (its FULL OUTER JOIN additionally
keeps unmatched rows of either side; the matching itself is this predicate
and nothing more). -/
def combineEmbryoscopePlanilha (gs : List CombinedRow)
    (ps : List PlanilhaRow) : List (CombinedRow × PlanilhaRow) :=
  gs.flatMap (fun g => (ps.filter (planilhaJoinPred g)).map (fun p => (g, p)))

/-! ## The gold.embryo_images_metadata table

Embedding of `00_create_metadata_table.sql`: fourteen columns, of which
`embryo_id`, `focal_plane`, `clinic_location`, `extraction_timestamp`, and
`status` are declared NOT NULL, with `PRIMARY KEY (embryo_id, focal_plane)`.
The comment on `status` lists 'success', 'failed', 'pending', but the DDL has
no CHECK constraint.  SQL NULL is `Option.none`; inserts and updates are
rejected exactly when they violate a declared constraint. -/

/-- A row of `gold.embryo_images_metadata`; every column may in principle
hold NULL, and the declared constraints police them. -/
structure MetadataRow where
  embryo_id : Option String
  focal_plane : Option Int
  prontuario : Option String
  embryo_description_id : Option String
  clinic_location : Option String
  extraction_timestamp : Option Nat
  image_count : Option Int
  file_size_bytes : Option Int
  image_runs_count : Option Int
  status : Option String
  error_message : Option String
  api_response_time_ms : Option Int
  created_at : Option Nat
  updated_at : Option Nat
deriving DecidableEq, Repr

/-- The NOT NULL constraints of the DDL. -/
def notNullOk (r : MetadataRow) : Bool :=
  r.embryo_id.isSome && r.focal_plane.isSome && r.clinic_location.isSome &&
  r.extraction_timestamp.isSome && r.status.isSome

/-- Two rows collide on the declared `PRIMARY KEY (embryo_id, focal_plane)`. -/
def pkMatches (r s : MetadataRow) : Bool :=
  r.embryo_id == s.embryo_id && r.focal_plane == s.focal_plane

/-- The status values listed in the DDL's comment on the `status` column. -/
def statusAllowed (r : MetadataRow) : Bool :=
  r.status == some "success" || r.status == some "failed" ||
  r.status == some "pending"

/-- INSERT into the table: rejected (`none`) when a NOT NULL column is NULL
or the primary key is already present; otherwise the row is appended. -/
def insertMetadataRow (t : List MetadataRow) (r : MetadataRow) :
    Option (List MetadataRow) :=
  if notNullOk r = false then none
  else if t.any (fun s => pkMatches s r) then none
  else some (t ++ [r])

/-- UPDATE of the non-key columns `status`, `error_message`, `updated_at` of
the rows matching a primary key; rejected when it would set a NOT NULL
column to NULL. -/
def updateMetadataStatus (t : List MetadataRow) (eid : Option String)
    (fp : Option Int) (newStatus newError : Option String) (ts : Option Nat) :
    Option (List MetadataRow) :=
  if newStatus.isNone then none
  else
    some (t.map (fun s =>
      if s.embryo_id == eid && s.focal_plane == fp then
        { s with status := newStatus, error_message := newError,
                 updated_at := ts }
      else s))

/-- The table invariant the DDL enforces: pairwise-distinct primary keys and
the NOT NULL columns populated in every row. -/
def metadataTableOk (t : List MetadataRow) : Prop :=
  t.Pairwise (fun a b => pkMatches a b = false) ∧ ∀ r ∈ t, notNullOk r = true

/-- A row that every declared constraint accepts but whose status is outside
the comment's list. -/
def oddStatusRow : MetadataRow :=
  ⟨some "E1", some 0, none, none, some "Vila Mariana", some 0,
   none, none, none, some "other", none, none, some 0, some 0⟩

/-! ## Local database files

The paths recorded in the tree: `params_template.yml` configures
`database.path: '../database/embryoscope_vila_mariana.db'`; the embryoscope
README's example configuration uses `../database/embryoscope_incremental.duckdb`;
the FinOps README stores its bronze layer in `huntington_data_lake.duckdb`.
`consolidate_embryoscope_dbs.py` is not in the tree; its batch wrapper says
it consolidates the embryoscope databases into the central data lake. -/

/-- `database.path` of `params_template.yml`. -/
def configuredDatabasePath : String := "../database/embryoscope_vila_mariana.db"

/-- The database path of the embryoscope README's example configuration. -/
def readmeExampleDatabasePath : String := "../database/embryoscope_incremental.duckdb"

/-- The FinOps bronze-layer database file per its README. -/
def finopsDatabasePath : String := "huntington_data_lake.duckdb"

/-- Local database files the tree's configuration and READMEs name. -/
def localDatabaseFiles : List String :=
  [configuredDatabasePath, readmeExampleDatabasePath, finopsDatabasePath]

/-- Modelled from the spec: `consolidate_embryoscope_dbs.py` is not in the
tree; per its batch wrapper it reads a per-location embryoscope database
and writes the central data lake, so the consolidation step touches at
least these two files. -/
def consolidationAccessedFiles : List String :=
  [configuredDatabasePath, finopsDatabasePath]

/-! ## Helper lemmas -/

/-- Batch execution is sequential: the scripts actually started are always
the first `k` of the script list, in order — step `k+1` starts only after
steps `1..k` have completed. -/
theorem runBatch_ran_take (ec : String → Nat) (steps : List BatchStep) :
    ∃ k, (runBatch ec steps).ran = (steps.map (fun s => s.name)).take k := by
  induction steps with
  | nil => exact ⟨0, rfl⟩
  | cons s rest ih =>
    obtain ⟨k, hk⟩ := ih
    by_cases h : ec s.name = 0
    · exact ⟨k + 1, by simp [runBatch, h, hk]⟩
    · by_cases hc : s.critical
      · exact ⟨1, by simp [runBatch, h, hc]⟩
      · exact ⟨k + 1, by simp [runBatch, h, hc, hk]⟩

/-- Upserting keyed by `_row_hash` preserves distinctness of the hash
column. -/
theorem upsertByHash_nodup (t : List LandedRow) (r : LandedRow)
    (h : (rowHashes t).Nodup) : (rowHashes (upsertByHash t r)).Nodup := by
  unfold upsertByHash
  by_cases hc : r.rowHash ∈ rowHashes t
  · simpa [hc] using h
  · simp only [hc, if_false]
    have : rowHashes (t ++ [r]) = rowHashes t ++ [r.rowHash] := by
      simp [rowHashes]
    rw [this]
    simpa [List.nodup_append, h] using hc

/-- Landing a whole batch preserves distinctness of the hash column. -/
theorem landBatch_nodup (md5 : String → String) (batch : List FlatRow) :
    ∀ t : List LandedRow, (rowHashes t).Nodup →
      (rowHashes (landBatch md5 t batch)).Nodup := by
  induction batch with
  | nil => intro t h; exact h
  | cons r rest ih =>
    intro t h
    exact ih _ (upsertByHash_nodup t (mkLandedRow md5 r) h)

/-! ## Claim theorems -/

/-- C10: when step 1 of the image-availability pipeline completes with exit
code 0 but no `api_results` directory for the chosen mode exists, the batch
file prints the no-embryos warning, reports the pipeline complete, and exits
with code 0 having run only step 1 — steps 2 through 5 never start. -/
theorem c10_empty_workset_exits_zero (e2 e3 e4 e5 : Nat) :
    (runImageAvailabilityPipeline true true false 0 e2 e3 e4 e5).exit = 0 ∧
    (runImageAvailabilityPipeline true true false 0 e2 e3 e4 e5).ran
      = ["01_check_image_availability.py"] ∧
    (runImageAvailabilityPipeline true true false 0 e2 e3 e4 e5).msgs
      = ["WARNING: No results directory found - no embryos were checked",
         "Pipeline complete (no embryos to process)"] := by
  simp [runImageAvailabilityPipeline]

/-- C2 counterexample: when every step of the image-availability pipeline
succeeds except its numbered STEP 5 (cleanup), the batch file prints a
WARNING rather than an error, still runs to the end, and terminates with
exit code 0 — not the nonzero exit code the claim requires for every
numbered step. -/
theorem c2_counterexample_cleanup_failure_exits_zero :
    (runImageAvailabilityPipeline true true true 0 0 0 0 1).exit = 0 ∧
    "05_cleanup_logs.py" ∈ (runImageAvailabilityPipeline true true true 0 0 0 0 1).ran ∧
    (runImageAvailabilityPipeline true true true 0 0 0 0 1).msgs
      = ["WARNING: Cleanup step failed (non-critical)",
         "PIPELINE COMPLETED SUCCESSFULLY!"] := by
  decide

/-- C2 (amended): for every numbered step of every batch-file orchestrator,
a nonzero exit code makes the batch file print an error and terminate with
exit code 1 without starting any later step — except for the steps the
batch files explicitly treat as non-critical, which print a warning and let
the batch continue.  Across all the orchestrators those non-critical steps
are exactly: the image-availability cleanup step, the clinisys
table-validation steps, the bronze/silver comparison step, the
complete-dataflow log-cleanup step, and the full-clinisys-dataflow
bronze-copy step (which falls back to existing bronze data); every other
embedded orchestrator has none. -/
theorem c2_step_failure_aborts_batch (ec : String → Nat)
    (pre : List BatchStep) (s : BatchStep) (post : List BatchStep)
    (hpre : ∀ p ∈ pre, ec p.name = 0) (hfail : ec s.name ≠ 0) :
    ((s.critical = true →
      runBatch ec (pre ++ s :: post)
        = ⟨pre.map (fun p => p.name) ++ [s.name],
           ["ERROR: " ++ s.name ++ " failed"], 1⟩) ∧
    (s.critical = false →
      runBatch ec (pre ++ s :: post)
        = ⟨pre.map (fun p => p.name)
             ++ s.name :: (runBatch ec post).ran,
           ("WARNING: " ++ s.name ++ " failed (non-critical)")
             :: (runBatch ec post).msgs,
           (runBatch ec post).exit⟩)) ∧
    (clinisysBronzeSilverSteps.filter (fun q => !q.critical)).map
      (fun q => q.name) = ["clinisys/check_tables.py"] ∧
    (clinisysDataflowSteps.filter (fun q => !q.critical)).map
      (fun q => q.name) = ["02_02_compare_bronze_and_silver.py"] ∧
    (imageAvailabilitySteps.filter (fun q => !q.critical)).map
      (fun q => q.name) = ["05_cleanup_logs.py"] ∧
    (completeDataflowSteps.filter (fun q => !q.critical)).map
      (fun q => q.name) = ["data_lake_scripts\\cleanup_old_logs.py"] ∧
    (clinisysFullDataflowSteps.filter (fun q => !q.critical)).map
      (fun q => q.name) = ["db_copy_loader.py", "check_tables.py"] ∧
    (embryoscopeDataflowSteps.filter (fun q => !q.critical)).map
      (fun q => q.name) = [] := by
  refine ⟨?_, by decide, by decide, by decide, by decide, by decide, by decide⟩
  induction pre with
  | nil =>
    constructor
    · intro hc; simp [runBatch, hfail, hc]
    · intro hc; simp [runBatch, hfail, hc]
  | cons p ps ih =>
    have hp : ec p.name = 0 := hpre p (by simp)
    have ih2 := ih (fun q hq => hpre q (by simp [hq]))
    have hrun : runBatch ec ((p :: ps) ++ s :: post)
        = ⟨p.name :: (runBatch ec (ps ++ s :: post)).ran,
           (runBatch ec (ps ++ s :: post)).msgs,
           (runBatch ec (ps ++ s :: post)).exit⟩ := by
      simp [runBatch, hp]
    constructor
    · intro hc
      rw [hrun, ih2.1 hc]
      simp
    · intro hc
      rw [hrun, ih2.2 hc]
      simp

/-- C2 witness: in `clinisys/run_bronze_and_silver.bat`, when the first three
steps succeed and the critical consolidation step fails, the batch prints
the error and exits 1. -/
theorem c2_step_failure_aborts_batch_witness :
    runBatch (fun n => if n == "clinisys/gold_loader.py" then 1 else 0)
      clinisysBronzeSilverSteps
      = ⟨["db_copy_loader.py", "silver_loader_try_strptime_complete.py",
          "clinisys/check_tables.py", "clinisys/gold_loader.py"],
         ["ERROR: clinisys/gold_loader.py failed"], 1⟩ := by
  have h := (c2_step_failure_aborts_batch
      (fun n => if n == "clinisys/gold_loader.py" then 1 else 0)
      [⟨"db_copy_loader.py", true⟩,
       ⟨"silver_loader_try_strptime_complete.py", true⟩,
       ⟨"clinisys/check_tables.py", false⟩]
      ⟨"clinisys/gold_loader.py", true⟩ []
      (by decide) (by decide)).1.1 rfl
  simpa [clinisysBronzeSilverSteps] using h

/-- C7 counterexample: the finops pipeline batch file does not run its
numbered scripts in ascending numeric order — its third script is
`03_01_create_finops_summary.py` and its fourth is
`03_00_create_patient_info.py`, and `[3, 1]` does not precede `[3, 0]`. -/
theorem c7_counterexample_finops_order :
    strictlyAscending (finopsPipelineScripts.map leadingNums) = false ∧
    finopsPipelineScripts[2]? = some "03_01_create_finops_summary.py" ∧
    finopsPipelineScripts[3]? = some "03_00_create_patient_info.py" ∧
    leadingNums "03_01_create_finops_summary.py" = [3, 1] ∧
    leadingNums "03_00_create_patient_info.py" = [3, 0] ∧
    lexLt [3, 1] [3, 0] = false := by
  decide

/-- C7 (amended): every batch-file orchestrator runs its scripts one at a
time, step k+1 starting only after step k has completed (the scripts started
are always an in-order initial segment of the script list), and every
orchestrator except the finops and embryos-with-prescription pipelines runs
its numbered scripts in strictly ascending numeric order; those two run
`03_01_create_finops_summary.py` before `03_00_create_patient_info.py` and
invoke the `04` export script repeatedly. -/
theorem c7_scripts_ascending_and_sequential :
    strictlyAscending (embryoscopeDataflowScripts.map leadingNums) = true ∧
    strictlyAscending (clinisysDataflowScripts.map leadingNums) = true ∧
    strictlyAscending (imageAvailabilityScripts.map leadingNums) = true ∧
    strictlyAscending (dataLakeCombineScripts.map leadingNums) = true ∧
    strictlyAscending (planilhaCreateTablesScripts.map leadingNums) = true ∧
    strictlyAscending (planilhaIngestionScripts.map leadingNums) = true ∧
    strictlyAscending (mescladaScripts.map leadingNums) = true ∧
    strictlyAscending (redlaraScripts.map leadingNums) = true ∧
    strictlyAscending (ploidiaScripts.map leadingNums) = true ∧
    (∀ (ec : String → Nat) (steps : List BatchStep),
      ∃ k, (runBatch ec steps).ran = (steps.map (fun s => s.name)).take k) := by
  refine ⟨by decide, by decide, by decide, by decide, by decide, by decide,
    by decide, by decide, by decide, runBatch_ran_take⟩

/-- C1: for every row landed in a data table the system stores the MD5 hash
of the flattened row in `_row_hash` and upserts keyed by it — whenever the
hash column of a table is duplicate-free, landing any batch of re-extracted
rows keeps it duplicate-free (so no data table ever holds two rows with the
same `_row_hash`), and a row whose hash is already present is not inserted
as a new record. -/
theorem c1_row_hash_upsert_unique (md5 : String → String)
    (t : List LandedRow) (batch : List FlatRow) (r : FlatRow)
    (h : (rowHashes t).Nodup) :
    (rowHashes (landBatch md5 t batch)).Nodup ∧
    ((mkLandedRow md5 r).rowHash ∈ rowHashes t →
      upsertByHash t (mkLandedRow md5 r) = t) := by
  refine ⟨landBatch_nodup md5 batch t h, fun hmem => ?_⟩
  simp [upsertByHash, hmem]

/-- C1 witness: landing a batch that repeats a row leaves the hash column
duplicate-free, and re-upserting a present row changes nothing. -/
theorem c1_row_hash_upsert_unique_witness :
    (rowHashes (landBatch (fun s => s) []
      [[("PatientIDx", "P1")], [("PatientIDx", "P1")],
       [("PatientIDx", "P2")]])).Nodup ∧
    ((mkLandedRow (fun s => s) [("PatientIDx", "P1")]).rowHash
        ∈ rowHashes (landBatch (fun s => s) []
          [[("PatientIDx", "P1")], [("PatientIDx", "P1")],
           [("PatientIDx", "P2")]]) →
      upsertByHash (landBatch (fun s => s) []
          [[("PatientIDx", "P1")], [("PatientIDx", "P1")],
           [("PatientIDx", "P2")]])
        (mkLandedRow (fun s => s) [("PatientIDx", "P1")])
        = landBatch (fun s => s) []
          [[("PatientIDx", "P1")], [("PatientIDx", "P1")],
           [("PatientIDx", "P2")]]) := by
  have h := c1_row_hash_upsert_unique (fun s => s)
    (landBatch (fun s => s) []
      [[("PatientIDx", "P1")], [("PatientIDx", "P1")], [("PatientIDx", "P2")]])
    [] [("PatientIDx", "P1")]
    (c1_row_hash_upsert_unique (fun s => s) [] [[("PatientIDx", "P1")],
      [("PatientIDx", "P1")], [("PatientIDx", "P2")]] [("PatientIDx", "P1")]
      List.nodup_nil).1
  exact ⟨(c1_row_hash_upsert_unique (fun s => s) []
    [[("PatientIDx", "P1")], [("PatientIDx", "P1")], [("PatientIDx", "P2")]]
    [("PatientIDx", "P1")] List.nodup_nil).1, h.2⟩

/-- C3 counterexample: the matching report's populated match-rate rows are
not all within 25-33 percent — the 2025 per-year row reports 33.43 %, the
per-clinic table reports rates of 0 % and 100 %, and the tables fail the
range check as a whole. -/
theorem c3_counterexample_rates_outside_range :
    (⟨2025, 34015, 11370, 3343⟩ : YearMatchRow) ∈ matchRatePerYear ∧
    ¬ (2500 ≤ (3343 : Nat) ∧ (3343 : Nat) ≤ 3300) ∧
    matchRatePerYear.all
      (fun r => 2500 ≤ r.ratePct100 && r.ratePct100 ≤ 3300) = false ∧
    matchRatePerClinic.all
      (fun r => 2500 ≤ r.ratePct100 && r.ratePct100 ≤ 3300) = false ∧
    (⟨"VILA MARIANA", 87, 87, 10000⟩ : ClinicMatchRow) ∈ matchRatePerClinic := by
  decide

/-- C3 (amended): every match rate reported in the matching report lies
between 0 % and 100 %; the overall recent rates — the per-year rates from
2022 on and the last-6-months rate — lie between 25 % and 33.5 %, while the
early-year and per-clinic rates range from 0 % to 100 %. -/
theorem c3_reported_match_rates_ranges :
    allReportedRates.all (fun r => r ≤ 10000) = true ∧
    (matchRatePerYear.filter (fun r => 2022 ≤ r.year)).all
      (fun r => 2500 ≤ r.ratePct100 && r.ratePct100 ≤ 3350) = true ∧
    2500 ≤ matchRateLast6Months.2.2 ∧ matchRateLast6Months.2.2 ≤ 3350 ∧
    matchRatePerClinic.any (fun r => r.ratePct100 < 2500) = true ∧
    matchRatePerClinic.any (fun r => 3300 < r.ratePct100) = true := by
  decide

/-- C4: the extraction configuration inserts a fixed 0.1-second delay
between consecutive requests, caps parallel location extraction at 3
workers, and refreshes the authentication token every 2000 patients, every
5000 treatments, and every 1000 embryos in the image-availability script. -/
theorem c4_rate_limit_workers_token_refresh :
    extractionConfig.rate_limit_delay = 1 / 10 ∧
    extractionConfig.max_retries = 3 ∧
    extractionConfig.max_workers = 3 ∧
    extractionConfig.token_refresh_patients = 2000 ∧
    extractionConfig.token_refresh_treatments = 5000 ∧
    imageAvailabilityTokenRefreshEmbryos = 1000 ∧
    imageAvailabilityRateDelay = 1 / 10 ∧
    (∀ i : Nat, requestTime extractionConfig (i + 1)
        - requestTime extractionConfig i = extractionConfig.rate_limit_delay) ∧
    (∀ loc : Nat, workerOf extractionConfig loc < extractionConfig.max_workers) ∧
    (∀ n : Nat, patientTokenRefreshes extractionConfig (n + 2000)
        = patientTokenRefreshes extractionConfig n + 1) ∧
    (∀ n : Nat, treatmentTokenRefreshes extractionConfig (n + 5000)
        = treatmentTokenRefreshes extractionConfig n + 1) := by
  refine ⟨rfl, rfl, rfl, rfl, rfl, rfl, rfl, ?_, ?_, ?_, ?_⟩
  · intro i
    simp [requestTime]
    ring
  · intro loc
    exact Nat.mod_lt _ (by decide)
  · intro n
    exact Nat.add_div_right n (by norm_num)
  · intro n
    exact Nat.add_div_right n (by norm_num)

/-- When attempts `k..k+n-1` fail and attempt `k+n` succeeds within the
allowed budget, the retry loop returns the success. -/
theorem retryFrom_ok {α : Type} (att : Nat → Except String α) (v : α) :
    ∀ (n k m : Nat), n < m →
      (∀ j, j < n → ∃ e, att (k + j) = Except.error e) →
      att (k + n) = Except.ok v →
      retryFrom att k m = Except.ok v := by
  intro n
  induction n with
  | zero =>
    intro k m hm hfail hok
    match m, hm with
    | m' + 1, _ =>
      rw [Nat.add_zero] at hok
      simp only [retryFrom]
      rw [hok]
  | succ n ih =>
    intro k m hm hfail hok
    match m, hm with
    | m' + 1, hm =>
      obtain ⟨e, he⟩ := hfail 0 (Nat.succ_pos n)
      rw [Nat.add_zero] at he
      have hn : n < m' := Nat.lt_of_succ_lt_succ hm
      match m', hn with
      | m'' + 1, hn =>
        simp only [retryFrom]
        rw [he]
        show retryFrom att (k + 1) (m'' + 1) = Except.ok v
        exact ih (k + 1) (m'' + 1) hn
          (fun j hj => by
            obtain ⟨e2, he2⟩ := hfail (j + 1) (Nat.succ_lt_succ hj)
            exact ⟨e2, by rw [show k + 1 + j = k + (j + 1) by omega]; exact he2⟩)
          (by rw [show k + 1 + n = k + (n + 1) by omega]; exact hok)

/-- When every attempt in the budget fails, the retry loop returns a
failure. -/
theorem retryFrom_error {α : Type} (att : Nat → Except String α) :
    ∀ (m k : Nat),
      (∀ j, j < m → ∃ e, att (k + j) = Except.error e) →
      ∃ e, retryFrom att k m = Except.error e := by
  intro m
  induction m with
  | zero => exact fun k _ => ⟨"no attempts made", rfl⟩
  | succ m ih =>
    intro k hfail
    obtain ⟨e, he⟩ := hfail 0 (Nat.succ_pos m)
    rw [Nat.add_zero] at he
    match m with
    | 0 =>
      refine ⟨e, ?_⟩
      simp only [retryFrom]
      rw [he]
    | m' + 1 =>
      obtain ⟨e2, he2⟩ := ih (k + 1)
        (fun j hj => by
          obtain ⟨e3, he3⟩ := hfail (j + 1) (Nat.succ_lt_succ hj)
          exact ⟨e3, by rw [show k + 1 + j = k + (j + 1) by omega]; exact he3⟩)
      refine ⟨e2, ?_⟩
      simp only [retryFrom]
      rw [he]
      exact he2

/-- C8: a failed API request is retried up to `max_retries = 3` attempts
with exponential (doubling) backoff; a success on any attempt within the
budget yields exactly the result of a first-attempt success, and a failure
is returned only when all attempts have failed. -/
theorem c8_api_retry_logic {α : Type} (att : Nat → Except String α) (v : α)
    (n : Nat) (hn : n < extractionConfig.max_retries)
    (hfail : ∀ j, j < n → ∃ e, att j = Except.error e)
    (hok : att n = Except.ok v) :
    requestWithRetries extractionConfig.max_retries att = Except.ok v ∧
    requestWithRetries extractionConfig.max_retries att
      = requestWithRetries extractionConfig.max_retries
          (fun _ => Except.ok v) ∧
    (∀ att2 : Nat → Except String α,
      (∀ j, j < extractionConfig.max_retries → ∃ e, att2 j = Except.error e) →
      ∃ e, requestWithRetries extractionConfig.max_retries att2
        = Except.error e) ∧
    extractionConfig.max_retries = 3 ∧
    (∀ k : Nat, backoffDelay (k + 1) = 2 * backoffDelay k) := by
  have h1 : requestWithRetries extractionConfig.max_retries att
      = Except.ok v := by
    refine retryFrom_ok att v n 0 extractionConfig.max_retries hn ?_ ?_
    · intro j hj
      simpa using hfail j hj
    · simpa using hok
  refine ⟨h1, ?_, ?_, rfl, ?_⟩
  · rw [h1]
    rfl
  · intro att2 hfail2
    refine retryFrom_error att2 extractionConfig.max_retries 0 ?_
    intro j hj
    simpa using hfail2 j hj
  · intro k
    simp [backoffDelay, pow_succ]
    ring

/-- C8 witness: an attempt function failing once then succeeding returns
the success, matching a first-attempt success. -/
theorem c8_api_retry_logic_witness :
    requestWithRetries extractionConfig.max_retries
      (fun k => if k = 1 then Except.ok 7 else Except.error "boom")
      = Except.ok 7 ∧
    requestWithRetries extractionConfig.max_retries
      (fun k => if k = 1 then Except.ok 7 else Except.error "boom")
      = requestWithRetries extractionConfig.max_retries
          (fun _ => Except.ok 7) ∧
    (∀ att2 : Nat → Except String Nat,
      (∀ j, j < extractionConfig.max_retries → ∃ e, att2 j = Except.error e) →
      ∃ e, requestWithRetries extractionConfig.max_retries att2
        = Except.error e) ∧
    extractionConfig.max_retries = 3 ∧
    (∀ k : Nat, backoffDelay (k + 1) = 2 * backoffDelay k) :=
  c8_api_retry_logic
    (fun k => if k = 1 then Except.ok 7 else Except.error "boom") 7 1
    (by decide)
    (fun j hj => ⟨"boom", by
      have hj0 : j = 0 := by omega
      subst hj0
      rfl⟩)
    rfl

/-- C6: cross-system matching is exactly the SQL join equalities — a
clinisys/embryoscope pair is matched precisely when
`micro_Data_DL = DATE(embryo_FertilizationTime)` and
`micro_prontuario = prontuario` and
`oocito_embryo_number = embryo_embryo_number`, and a combined/spreadsheet
pair precisely when `micro_prontuario = PIN` and
`DATE(descong_em_DataTransferencia) = DATE("DATA DA FET")` — with no
tie-breaking, scoring, or conflict-resolution step selecting among the
pairs that satisfy the equalities. -/
theorem c6_join_predicates_are_equalities
    (cs : List ClinisysEmbryo) (es : List EmbryoscopeEmbryo)
    (c : ClinisysEmbryo) (e : EmbryoscopeEmbryo)
    (gs : List CombinedRow) (ps : List PlanilhaRow)
    (g : CombinedRow) (p : PlanilhaRow) :
    ((c, e) ∈ mergeClinisysEmbryoscope cs es ↔
      c ∈ cs ∧ e ∈ es ∧
      c.micro_Data_DL = dateOf e.embryo_FertilizationTime ∧
      c.micro_prontuario = e.prontuario ∧
      c.oocito_embryo_number = e.embryo_embryo_number) ∧
    ((g, p) ∈ combineEmbryoscopePlanilha gs ps ↔
      g ∈ gs ∧ p ∈ ps ∧
      g.micro_prontuario = p.PIN ∧
      dateOf g.descong_em_DataTransferencia = dateOf p.DATA_DA_FET) := by
  constructor
  · constructor
    · intro hmem
      simp only [mergeClinisysEmbryoscope, List.mem_flatMap, List.mem_map] at hmem
      obtain ⟨c', hc', e', hef, heq⟩ := hmem
      rw [Prod.mk.injEq] at heq
      obtain ⟨rfl, rfl⟩ := heq
      rw [List.mem_filter] at hef
      obtain ⟨he, hpred⟩ := hef
      simp only [mergeJoinPred, Bool.and_eq_true, beq_iff_eq] at hpred
      exact ⟨hc', he, hpred.1.1, hpred.1.2, hpred.2⟩
    · rintro ⟨hc, he, hd, hp, hn⟩
      simp only [mergeClinisysEmbryoscope, List.mem_flatMap, List.mem_map]
      refine ⟨c, hc, e, ?_, rfl⟩
      rw [List.mem_filter]
      refine ⟨he, ?_⟩
      simp only [mergeJoinPred, Bool.and_eq_true, beq_iff_eq]
      exact ⟨⟨hd, hp⟩, hn⟩
  · constructor
    · intro hmem
      simp only [combineEmbryoscopePlanilha, List.mem_flatMap, List.mem_map] at hmem
      obtain ⟨g', hg', p', hpf, heq⟩ := hmem
      rw [Prod.mk.injEq] at heq
      obtain ⟨rfl, rfl⟩ := heq
      rw [List.mem_filter] at hpf
      obtain ⟨hp, hpred⟩ := hpf
      simp only [planilhaJoinPred, Bool.and_eq_true, beq_iff_eq] at hpred
      exact ⟨hg', hp, hpred.1, hpred.2⟩
    · rintro ⟨hg, hp, hpin, hdt⟩
      simp only [combineEmbryoscopePlanilha, List.mem_flatMap, List.mem_map]
      refine ⟨g, hg, p, ?_, rfl⟩
      rw [List.mem_filter]
      refine ⟨hp, ?_⟩
      simp only [planilhaJoinPred, Bool.and_eq_true, beq_iff_eq]
      exact ⟨hpin, hdt⟩

/-- C9 counterexample: the DDL has no CHECK constraint on `status` — an
insert whose `status` is 'other' satisfies every declared constraint and
succeeds, leaving the table with a row whose status is outside
'success'/'failed'/'pending'. -/
theorem c9_counterexample_status_not_enforced :
    insertMetadataRow [] oddStatusRow = some [oddStatusRow] ∧
    statusAllowed oddStatusRow = false ∧
    notNullOk oddStatusRow = true := by
  decide

/-- C9 (amended): `gold.embryo_images_metadata` keeps at most one row per
`(embryo_id, focal_plane)` — its primary key — and in every row the NOT NULL
columns `embryo_id`, `focal_plane`, `clinic_location`,
`extraction_timestamp`, `status` are non-NULL; every accepted insert or
status update preserves this.  The values 'success', 'failed', 'pending'
for `status` are only documented in a comment, not enforced by any
constraint. -/
theorem c9_metadata_table_invariants (t t' : List MetadataRow)
    (r : MetadataRow) (eid : Option String) (fp : Option Int)
    (st er : Option String) (ts : Option Nat)
    (h : metadataTableOk t) :
    (insertMetadataRow t r = some t' → metadataTableOk t') ∧
    (updateMetadataStatus t eid fp st er ts = some t' → metadataTableOk t') := by
  obtain ⟨hpk, hnn⟩ := h
  constructor
  · intro hins
    unfold insertMetadataRow at hins
    by_cases h1 : notNullOk r = false
    · simp [h1] at hins
    · rw [if_neg h1] at hins
      by_cases h2 : t.any (fun s => pkMatches s r)
      · simp [h2] at hins
      · rw [if_neg (by simpa using h2)] at hins
        obtain ⟨rfl⟩ := Option.some.injEq _ _ ▸ hins
        have hnoconf : ∀ s ∈ t, pkMatches s r = false := by
          intro s hs
          by_contra hcon
          exact h2 (List.any_eq_true.mpr ⟨s, hs, by
            cases hq : pkMatches s r
            · exact absurd hq hcon
            · rfl⟩)
        constructor
        · rw [List.pairwise_append]
          refine ⟨hpk, by simp, ?_⟩
          intro a ha b hb
          simp at hb
          subst hb
          exact hnoconf a ha
        · intro x hx
          rcases List.mem_append.mp hx with hx | hx
          · exact hnn x hx
          · simp at hx
            subst hx
            cases hq : notNullOk x
            · exact absurd hq h1
            · rfl
  · intro hupd
    unfold updateMetadataStatus at hupd
    by_cases h1 : st.isNone
    · simp [h1] at hupd
    · rw [if_neg h1] at hupd
      obtain ⟨rfl⟩ := Option.some.injEq _ _ ▸ hupd
      have hkeys : ∀ s : MetadataRow,
          ((if s.embryo_id == eid && s.focal_plane == fp then
            { s with status := st, error_message := er, updated_at := ts }
          else s) : MetadataRow).embryo_id = s.embryo_id ∧
          ((if s.embryo_id == eid && s.focal_plane == fp then
            { s with status := st, error_message := er, updated_at := ts }
          else s) : MetadataRow).focal_plane = s.focal_plane := by
        intro s
        by_cases hc : (s.embryo_id == eid && s.focal_plane == fp) = true
        · simp [hc]
        · simp [hc]
      constructor
      · refine List.Pairwise.map _ ?_ hpk
        intro a b hab
        unfold pkMatches
        rw [(hkeys a).1, (hkeys a).2, (hkeys b).1, (hkeys b).2]
        exact hab
      · intro x hx
        obtain ⟨s, hs, rfl⟩ := List.mem_map.mp hx
        have hsok := hnn s hs
        by_cases hc : (s.embryo_id == eid && s.focal_plane == fp) = true
        · simp only [hc, if_true]
          unfold notNullOk at hsok ⊢
          simp only [Bool.and_eq_true] at hsok ⊢
          refine ⟨⟨⟨⟨hsok.1.1.1.1, hsok.1.1.1.2⟩, hsok.1.1.2⟩, hsok.1.2⟩, ?_⟩
          cases st
          · exact absurd rfl h1
          · rfl
        · simp only [hc, if_false]
          exact hsok

/-- C9 witness: inserting a well-formed row into the empty table yields a
table satisfying the invariant. -/
theorem c9_metadata_table_invariants_witness :
    (insertMetadataRow []
        ⟨some "E1", some 0, none, none, some "Vila Mariana", some 0,
         none, none, none, some "pending", none, none, some 0, some 0⟩
      = some [⟨some "E1", some 0, none, none, some "Vila Mariana", some 0,
         none, none, none, some "pending", none, none, some 0, some 0⟩] →
      metadataTableOk
        [⟨some "E1", some 0, none, none, some "Vila Mariana", some 0,
          none, none, none, some "pending", none, none, some 0, some 0⟩]) ∧
    metadataTableOk
      [⟨some "E1", some 0, none, none, some "Vila Mariana", some 0,
        none, none, none, some "pending", none, none, some 0, some 0⟩] := by
  have h := c9_metadata_table_invariants []
    [⟨some "E1", some 0, none, none, some "Vila Mariana", some 0,
      none, none, none, some "pending", none, none, some 0, some 0⟩]
    ⟨some "E1", some 0, none, none, some "Vila Mariana", some 0,
      none, none, none, some "pending", none, none, some 0, some 0⟩
    none none none none none
    ⟨List.Pairwise.nil, by simp⟩
  exact ⟨h.1, h.1 rfl⟩

/-- C5 counterexample: the tree's configuration and documentation name more
than one local database file — the per-location embryoscope database of
`params_template.yml` and the FinOps central data lake are distinct files,
and the consolidation step touches at least two database files. -/
theorem c5_counterexample_multiple_database_files :
    configuredDatabasePath ∈ localDatabaseFiles ∧
    finopsDatabasePath ∈ localDatabaseFiles ∧
    configuredDatabasePath ≠ finopsDatabasePath ∧
    2 ≤ consolidationAccessedFiles.length ∧
    localDatabaseFiles.dedup.length ≠ 1 := by
  decide

/-- C5 (amended): each batch step runs sequentially (the scripts started are
always an in-order initial segment of the orchestrator's list), but the
pipelines use more than one local database file: the per-location
embryoscope database and the central data-lake file are distinct, and the
consolidation step reads the former and writes the latter. -/
theorem c5_sequential_steps_multiple_db_files :
    consolidationAccessedFiles = [configuredDatabasePath, finopsDatabasePath] ∧
    configuredDatabasePath ≠ finopsDatabasePath ∧
    (∀ (ec : String → Nat) (steps : List BatchStep),
      ∃ k, (runBatch ec steps).ran = (steps.map (fun s => s.name)).take k) := by
  exact ⟨rfl, by decide, runBatch_ran_take⟩
